import Mathlib

/-!
Shallow embedding of the session-bootstrap state machine and the token
acquisition engine of the wristband react-client-auth library.

The definitions below are translated from the TypeScript source:
* the provider component (constants, `clearToken`, `getToken`, the
  `fetchSession` bootstrap loop and its state commits);
* the helpers `isHttpStatusError`, `isUnauthorizedError`, `is4xxError`;
* the error classes `ApiError` / `WristbandError`;
* `resolveAuthProviderLoginUrl` together with the parts of the browser
  `URL` / `URLSearchParams` / `encodeURI` built-ins that it uses.

Asynchrony is modelled by making the suspension structure explicit: each
bounded retry loop is a function from the per-attempt endpoint result to
an outcome, an emitted event trace (network calls, retry delays, hook
invocations, state commits), and a state effect.  The JavaScript event
loop is single threaded and every synchronous block runs to completion,
so the synchronous prefix of `getToken` (precondition checks, cache
check, in-flight check, marker installation) is modelled as one atomic
state transition.
-/

/-- Constants from the provider source. -/
def TOKEN_EXPIRATION_BUFFER_TIME_MS : Int := 30000

def MAX_API_ATTEMPTS : Nat := 3

def API_RETRY_DELAY_MS : Nat := 100

/-- The closed error-code set of the library (`WristbandErrorCode`). -/
inductive WristbandErrorCode where
  | INVALID_LOGIN_URL
  | INVALID_LOGOUT_URL
  | INVALID_SESSION_URL
  | INVALID_TOKEN_URL
  | INVALID_SESSION_RESPONSE
  | INVALID_TOKEN_RESPONSE
  | SESSION_FETCH_FAILED
  | TOKEN_FETCH_FAILED
  | UNAUTHENTICATED
  deriving DecidableEq, Repr

/-- JavaScript error values the engines can observe.

`apiError status` models the library's `ApiError` (thrown by the HTTP
client, with an optional numeric `status`); `wristband code msg orig`
models `WristbandError` with its optional wrapped `originalError`;
`generic tag` models any other thrown value (e.g. a network `TypeError`),
which is neither an `ApiError` nor a `WristbandError`. -/
inductive JsError where
  | apiError (status : Option Nat) : JsError
  | wristband (code : WristbandErrorCode) (message : String)
      (originalError : Option JsError) : JsError
  | generic (tag : String) : JsError

/-- `error instanceof WristbandError`. -/
def isWristbandError : JsError → Bool
  | .wristband _ _ _ => true
  | _ => false

/-- `isHttpStatusError` from the utils: `error instanceof ApiError`
and `error.status === statusCode`. -/
def isHttpStatusError (error : JsError) (statusCode : Nat) : Bool :=
  match error with
  | .apiError (some s) => s = statusCode
  | _ => false

/-- `isUnauthorizedError`: `isHttpStatusError(error, 401)`. -/
def isUnauthorizedError (error : JsError) : Bool :=
  isHttpStatusError error 401

/-- `is4xxError`: not an `ApiError` or falsy status gives `false`,
otherwise `status >= 400 && status < 500`. -/
def is4xxError (error : JsError) : Bool :=
  match error with
  | .apiError (some s) => 400 ≤ s && s < 500
  | _ => false

/-- An error on which the retry loops neither rethrow nor bail out early:
not a `WristbandError`, not a 401, not another 4xx.  These are exactly
the errors (5xx `ApiError`s, network failures) that reach the
fixed-delay retry branch of both loops. -/
def isRetriableFailure (error : JsError) : Bool :=
  !isWristbandError error && !isUnauthorizedError error && !is4xxError error

/-- JavaScript `String.prototype.trim`: strip leading and trailing
whitespace. -/
def jsTrim (s : String) : String :=
  String.mk (((s.data.dropWhile Char.isWhitespace).reverse.dropWhile
    Char.isWhitespace).reverse)

/-- Split a character list at every separator, keeping empty segments
(the semantics of `String.split`). -/
def splitOnChar (p : Char → Bool) : List Char → List (List Char)
  | [] => [[]]
  | c :: rest =>
    if p c then [] :: splitOnChar p rest
    else
      match splitOnChar p rest with
      | [] => [[c]]
      | seg :: segs => (c :: seg) :: segs

/-- `String.split` over the list model. -/
def splitString (p : Char → Bool) (s : String) : List String :=
  (splitOnChar p s.data).map String.mk

/-- List-level `startsWith`. -/
def isPrefixChars : List Char → List Char → Bool
  | [], _ => true
  | _ :: _, [] => false
  | a :: as, b :: bs => a = b && isPrefixChars as bs

/-- `String.startsWith` over the list model. -/
def startsWithStr (s pre : String) : Bool :=
  isPrefixChars pre.data s.data

/-- `String.contains` over the list model. -/
def containsChar (s : String) (c : Char) : Bool :=
  s.data.any (fun x => x = c)

/-- JS string-field truthiness plus trim check: `!s || !s.trim()`.
`none` models an absent (`undefined`/`null`) field. -/
def isBlankOpt : Option String → Bool
  | none => true
  | some s => jsTrim s = ""

/-- Result of one `apiClient.get` call: either the parsed response body
or the error the call rejected with. -/
inductive FetchResult (α : Type) where
  | ok (data : α) : FetchResult α
  | err (e : JsError) : FetchResult α

/-- Session metadata payload: a JSON-object-like association list. -/
abbrev Meta := List (String × String)

/-- The session endpoint response body `{ userId, tenantId, metadata }`.
`none` in `userId`/`tenantId` models an absent field; `none` in
`metadata` models a JS-falsy `metadata` value (absent, `null`, `0`,
`''`, `false`), which is exactly what the `if (rawMetadata)` guard in
the provider tests for. -/
structure SessionResponse where
  userId : Option String
  tenantId : Option String
  metadata : Option Meta
  deriving DecidableEq, Repr

/-- The token endpoint response body `{ accessToken, expiresAt }`.
`none` models an absent (`undefined`/`null`) field. -/
structure TokenResponse where
  accessToken : Option String
  expiresAt : Option Int
  deriving DecidableEq, Repr

/-- Observable events of a bootstrap or token-request run, in program
order: network calls, retry delays, hook invocation and resolution,
metadata transformation, and the state commits / cache writes. -/
inductive Ev where
  | sessionCall (attempt : Nat) : Ev
  | tokenCall (attempt : Nat) : Ev
  | retryDelay (ms : Nat) : Ev
  | hookStart (resp : SessionResponse) : Ev
  | hookResolved : Ev
  | transformCall (raw : Meta) : Ev
  | commitMetadata (m : Meta) : Ev
  | commitSuccess : Ev
  | cacheCleared : Ev
  | cacheWrite (token : String) (expiresAt : Int) : Ev

/-! ## Token acquisition engine -/

/-- The token cache pair written by `setAccessToken` /
`setAccessTokenExpiresAt`. -/
structure TokenCache where
  accessToken : String
  expiresAt : Int

/-- The retry loop inside the async IIFE of `getToken` (attempts
`1..MAX_API_ATTEMPTS`).  Returns the settlement of the token request
(`Except.ok token` for the returned token, `Except.error e` for the
rejection), the cache effect the run performs (`some c` when the loop
executed `setAccessToken`/`setAccessTokenExpiresAt` — the new token on
success, `⟨"", 0⟩` on a 401 — and `none` when the cache is untouched),
and the event trace.  `respAt n` is the result of the `apiClient.get`
call of attempt `n`.  The fuel argument `remaining` only bounds the
recursion; entry is at `attempt = 1`, `remaining = MAX_API_ATTEMPTS`,
and the `attempt = MAX_API_ATTEMPTS` test mirrors the source's
last-attempt break (the fuel never runs out). -/
def getTokenLoop (respAt : Nat → FetchResult TokenResponse)
    (attempt remaining : Nat) :
    Except JsError String × Option TokenCache × List Ev :=
  match remaining with
  | 0 =>
    (.error (.wristband .TOKEN_FETCH_FAILED "Failed to fetch token" none),
      none, [])
  | r + 1 =>
    match respAt attempt with
    | .ok resp =>
      if isBlankOpt resp.accessToken then
        -- thrown INVALID_TOKEN_RESPONSE, caught, rethrown as WristbandError
        (.error (.wristband .INVALID_TOKEN_RESPONSE
          "Token Endpoint response is missing required field: \"accessToken\"" none),
          none, [.tokenCall attempt])
      else
        match resp.expiresAt with
        | none =>
          (.error (.wristband .INVALID_TOKEN_RESPONSE
            "Token Endpoint response is missing required field: \"expiresAt\"" none),
            none, [.tokenCall attempt])
        | some exp =>
          if exp < 0 then
            (.error (.wristband .INVALID_TOKEN_RESPONSE
              "Token Endpoint response is missing required field: \"expiresAt\"" none),
              none, [.tokenCall attempt])
          else
            (.ok (resp.accessToken.getD ""),
              some ⟨resp.accessToken.getD "", exp⟩,
              [.tokenCall attempt,
               .cacheWrite (resp.accessToken.getD "") exp])
    | .err e =>
      if isWristbandError e then
        (.error e, none, [.tokenCall attempt])
      else if isUnauthorizedError e then
        (.error (.wristband .UNAUTHENTICATED "Token request unauthorized" (some e)),
          some ⟨"", 0⟩, [.tokenCall attempt, .cacheCleared])
      else if is4xxError e then
        (.error (.wristband .TOKEN_FETCH_FAILED "Failed to fetch token" (some e)),
          none, [.tokenCall attempt])
      else if attempt = MAX_API_ATTEMPTS then
        (.error (.wristband .TOKEN_FETCH_FAILED "Failed to fetch token" (some e)),
          none, [.tokenCall attempt])
      else
        ((getTokenLoop respAt (attempt + 1) r).1,
          (getTokenLoop respAt (attempt + 1) r).2.1,
          .tokenCall attempt :: .retryDelay API_RETRY_DELAY_MS ::
            (getTokenLoop respAt (attempt + 1) r).2.2)

/-- A whole token request: the loop entered at attempt 1 with the
source's attempt bound. -/
def getTokenRequest (respAt : Nat → FetchResult TokenResponse) :
    Except JsError String × Option TokenCache × List Ev :=
  getTokenLoop respAt 1 MAX_API_ATTEMPTS

/-- The provider state read and written by the token engine:
`validatedTokenUrl` (memoized prop), `isAuthenticated`, the
`accessToken`/`accessTokenExpiresAt` cache, and `tokenRequestRef`
(`some id` while a token request with identity `id` is in flight;
promise identity is modelled by a `Nat` id — callers holding the same
id hold the identical promise and therefore resolve to the identical
value). -/
structure TokenEngineState where
  validatedTokenUrl : String
  isAuthenticated : Bool
  accessToken : String
  accessTokenExpiresAt : Int
  tokenRequest : Option Nat
  deriving DecidableEq, Repr

/-- Cache-validity test of `getToken`:
`accessToken && accessTokenExpiresAt > Date.now() + TOKEN_EXPIRATION_BUFFER_TIME_MS`. -/
def isCacheValid (st : TokenEngineState) (now : Int) : Bool :=
  !st.accessToken.isEmpty &&
    decide (now + TOKEN_EXPIRATION_BUFFER_TIME_MS < st.accessTokenExpiresAt)

/-- What the synchronous prefix of one `getToken()` call produces:
a thrown error, the cached token returned synchronously, or a pending
promise (`pending id` — either the already-in-flight request joined, or
a freshly started one). -/
inductive GetTokenStart where
  | threw (e : JsError) : GetTokenStart
  | cachedToken (t : String) : GetTokenStart
  | pending (id : Nat) : GetTokenStart

/-- The synchronous prefix of `getToken()` (everything up to and
including storing the in-flight promise): precondition checks, cache
check, in-flight check, and — only when a new request starts — the
marker installation.  Returns the call result, the updated state, and
the number of network requests started (0 or 1).  It is atomic: in the
event-loop model no other code runs between the cache check and the
marker installation. -/
def getTokenStart (st : TokenEngineState) (now : Int) (freshId : Nat) :
    GetTokenStart × TokenEngineState × Nat :=
  if jsTrim st.validatedTokenUrl = "" then
    (.threw (.wristband .INVALID_TOKEN_URL "Token URL not configured" none), st, 0)
  else if !st.isAuthenticated then
    (.threw (.wristband .UNAUTHENTICATED "User is not authenticated" none), st, 0)
  else if isCacheValid st now then
    (.cachedToken st.accessToken, st, 0)
  else
    match st.tokenRequest with
    | some id => (.pending id, st, 0)
    | none => (.pending freshId, { st with tokenRequest := some freshId }, 1)

/-- `n` consecutive `getToken()` calls, none of which is separated from
the previous one by the settlement of any in-flight fetch (the only
state changes between the calls are those the calls make themselves).
`now i` is the clock value observed by call `i`; a fresh promise id is
consumed only when a call actually starts a request.  Returns the list
of call results, the final state, and the total number of network
requests started. -/
def getTokenCalls (st : TokenEngineState) (now : Nat → Int) (freshId : Nat) :
    Nat → List GetTokenStart × TokenEngineState × Nat
  | 0 => ([], st, 0)
  | n + 1 =>
    match getTokenStart st (now 0) freshId with
    | (r, st1, c1) =>
      match getTokenCalls st1 (fun i => now (i + 1)) (freshId + c1) n with
      | (rs, st2, c2) => (r :: rs, st2, c1 + c2)

/-- The settlement of a token request applied to the provider state
current at settlement time: the cache effect of the run (if any) via
`setAccessToken`/`setAccessTokenExpiresAt`, then the `finally` block's
unconditional `tokenRequestRef.current = null`. -/
def applyTokenSettle (cur : TokenEngineState) (eff : Option TokenCache) :
    TokenEngineState :=
  match eff with
  | some c =>
    { cur with accessToken := c.accessToken, accessTokenExpiresAt := c.expiresAt,
               tokenRequest := none }
  | none => { cur with tokenRequest := none }

/-- `clearToken`: clear the cached token, its expiry, and the in-flight
marker.  Purely synchronous; it does not interact with any running
fetch. -/
def clearToken (st : TokenEngineState) : TokenEngineState :=
  { st with accessToken := "", accessTokenExpiresAt := 0, tokenRequest := none }

/-! ## Session bootstrap state machine -/

/-- The state commit performed by a successful bootstrap (lines
`setMetadata?; setTenantId; setUserId; setIsAuthenticated(true);
setIsLoading(false); setAuthError(null)`).  `metadataUpdate = none`
records that the `if (rawMetadata)` guard skipped `setMetadata`. -/
structure CommitData where
  metadataUpdate : Option Meta
  tenantId : String
  userId : String
  isAuthenticated : Bool
  isLoading : Bool
  authError : Option JsError

/-- The configuration of one bootstrap run: the session endpoint result
per attempt, the optional `onSessionSuccess` hook (whose awaited result
either resolves, `Except.ok`, or rejects with an error,
`Except.error`), and the optional `transformSessionMetadata` hook. -/
structure SessionEnv where
  respAt : Nat → FetchResult SessionResponse
  onSessionSuccess : Option (SessionResponse → Except JsError Unit)
  transformSessionMetadata : Option (Meta → Meta)

/-- How `fetchSession` ends: a success-state commit (carrying the raw
response that produced it), an uncaught rethrown `WristbandError`
(a rejected bootstrap promise), or a classified terminal failure held
in `lastError` when the loop exits by `break`. -/
inductive SessionOutcome where
  | committed (resp : SessionResponse) (c : CommitData) : SessionOutcome
  | thrown (e : JsError) : SessionOutcome
  | failed (lastError : JsError) : SessionOutcome

/-- The success commit block of `fetchSession` (apply
`transformSessionMetadata` only when `rawMetadata` is truthy, then
commit the remaining context state), with its emitted events. -/
def sessionCommit (env : SessionEnv) (resp : SessionResponse) :
    CommitData × List Ev :=
  match resp.metadata with
  | some raw =>
    match env.transformSessionMetadata with
    | some f =>
      (⟨some (f raw), resp.tenantId.getD "", resp.userId.getD "", true, false, none⟩,
        [.transformCall raw, .commitMetadata (f raw), .commitSuccess])
    | none =>
      (⟨some raw, resp.tenantId.getD "", resp.userId.getD "", true, false, none⟩,
        [.commitMetadata raw, .commitSuccess])
  | none =>
    (⟨none, resp.tenantId.getD "", resp.userId.getD "", true, false, none⟩,
      [.commitSuccess])

/-- The `fetchSession` retry loop (attempts `1..MAX_API_ATTEMPTS`).
Each attempt: call the session endpoint; on a response, validate
`userId`/`tenantId` (a violation throws `INVALID_SESSION_RESPONSE`,
which the catch block rethrows because it is a `WristbandError`), run
the optional `onSessionSuccess` hook and await it, then commit state.
Any error — from the endpoint call or from the hook — lands in the one
catch block: rethrow `WristbandError`s, classify a 401 as
`UNAUTHENTICATED` and stop, classify another 4xx as
`SESSION_FETCH_FAILED` and stop, stop with `SESSION_FETCH_FAILED` on
the last attempt, otherwise delay `API_RETRY_DELAY_MS` and retry.
Entry is at `attempt = 1`, `remaining = MAX_API_ATTEMPTS`; the fuel
never runs out. -/
def fetchSessionGo (env : SessionEnv) (attempt remaining : Nat) :
    SessionOutcome × List Ev :=
  match remaining with
  | 0 => (.failed (.wristband .SESSION_FETCH_FAILED "Failed to fetch session" none), [])
  | r + 1 =>
    match env.respAt attempt with
    | .ok resp =>
      if isBlankOpt resp.userId then
        (.thrown (.wristband .INVALID_SESSION_RESPONSE
          "Session Endpoint response is missing required field: \"userId\"" none),
          [.sessionCall attempt])
      else if isBlankOpt resp.tenantId then
        (.thrown (.wristband .INVALID_SESSION_RESPONSE
          "Session Endpoint response is missing required field: \"tenantId\"" none),
          [.sessionCall attempt])
      else
        match env.onSessionSuccess with
        | none =>
          (.committed resp (sessionCommit env resp).1,
            .sessionCall attempt :: (sessionCommit env resp).2)
        | some hook =>
          match hook resp with
          | .ok _ =>
            (.committed resp (sessionCommit env resp).1,
              .sessionCall attempt :: .hookStart resp :: .hookResolved ::
                (sessionCommit env resp).2)
          | .error e =>
            if isWristbandError e then
              (.thrown e, [.sessionCall attempt, .hookStart resp])
            else if isUnauthorizedError e then
              (.failed (.wristband .UNAUTHENTICATED "User is not authenticated" (some e)),
                [.sessionCall attempt, .hookStart resp])
            else if is4xxError e then
              (.failed (.wristband .SESSION_FETCH_FAILED "Failed to fetch session" (some e)),
                [.sessionCall attempt, .hookStart resp])
            else if attempt = MAX_API_ATTEMPTS then
              (.failed (.wristband .SESSION_FETCH_FAILED "Failed to fetch session" (some e)),
                [.sessionCall attempt, .hookStart resp])
            else
              ((fetchSessionGo env (attempt + 1) r).1,
                .sessionCall attempt :: .hookStart resp ::
                  .retryDelay API_RETRY_DELAY_MS :: (fetchSessionGo env (attempt + 1) r).2)
    | .err e =>
      if isWristbandError e then
        (.thrown e, [.sessionCall attempt])
      else if isUnauthorizedError e then
        (.failed (.wristband .UNAUTHENTICATED "User is not authenticated" (some e)),
          [.sessionCall attempt])
      else if is4xxError e then
        (.failed (.wristband .SESSION_FETCH_FAILED "Failed to fetch session" (some e)),
          [.sessionCall attempt])
      else if attempt = MAX_API_ATTEMPTS then
        (.failed (.wristband .SESSION_FETCH_FAILED "Failed to fetch session" (some e)),
          [.sessionCall attempt])
      else
        ((fetchSessionGo env (attempt + 1) r).1,
          .sessionCall attempt :: .retryDelay API_RETRY_DELAY_MS ::
            (fetchSessionGo env (attempt + 1) r).2)

/-- One bootstrap run of `fetchSession`. -/
def fetchSession (env : SessionEnv) : SessionOutcome × List Ev :=
  fetchSessionGo env 1 MAX_API_ATTEMPTS

/-- The externally observable effect of the whole bootstrap, including
the code after the loop: a committed success state; an uncaught
rejection (rethrown `WristbandError`); or — for a `break` with
`lastError` — either storing the error (when
`disableRedirectOnUnauthenticated`) or navigating to the resolved
login URL. -/
inductive BootstrapEffect where
  | stateCommit (c : CommitData) : BootstrapEffect
  | thrownOut (e : JsError) : BootstrapEffect
  | errorStored (e : JsError) : BootstrapEffect
  | redirected (url : String) : BootstrapEffect

/-- `fetchSession` plus its epilogue (`disableRedirectOnUnauthenticated`
check / redirect to `resolvedLoginUrl`). -/
def runBootstrap (env : SessionEnv) (disableRedirectOnUnauthenticated : Bool)
    (resolvedLoginUrl : String) : BootstrapEffect × List Ev :=
  match fetchSession env with
  | (.committed _ c, evs) => (.stateCommit c, evs)
  | (.thrown e, evs) => (.thrownOut e, evs)
  | (.failed e, evs) =>
    if disableRedirectOnUnauthenticated then (.errorStored e, evs)
    else (.redirected resolvedLoginUrl, evs)

/-- The session-facing provider state (the `useState` cells the
bootstrap commits into). -/
structure SessionState where
  isAuthenticated : Bool
  isLoading : Bool
  authError : Option JsError
  userId : String
  tenantId : String
  metadata : Meta

/-- The `useState` initializers of the provider: `false, true, null,
'', '', {}` (the empty object is the empty association list). -/
def initialSessionState : SessionState :=
  ⟨false, true, none, "", "", []⟩

/-- Apply a success commit to the provider state.  `setMetadata` runs
only when the commit carries a metadata update. -/
def applyCommit (st : SessionState) (c : CommitData) : SessionState :=
  { st with
    metadata := c.metadataUpdate.getD st.metadata
    tenantId := c.tenantId
    userId := c.userId
    isAuthenticated := c.isAuthenticated
    isLoading := c.isLoading
    authError := c.authError }

/-- Scans a trace and checks that every state-commit event
(`commitMetadata` or `commitSuccess`) is preceded by an earlier
`hookResolved` event; the Boolean accumulator records whether a
`hookResolved` has been seen. -/
def commitsAfterHook : List Ev → Bool → Bool
  | [], _ => true
  | .hookResolved :: rest, _ => commitsAfterHook rest true
  | .commitMetadata _ :: rest, seen => seen && commitsAfterHook rest seen
  | .commitSuccess :: rest, seen => seen && commitsAfterHook rest seen
  | _ :: rest, seen => commitsAfterHook rest seen

/-! ## Login URL resolution (`resolveAuthProviderLoginUrl`)

The function uses the browser built-ins `new URL(loginUrl,
window.location.origin)`, `url.searchParams.has`,
`url.searchParams.append`, `url.toString()` and `encodeURI`.  The
definitions below embed the fragment of the WHATWG URL standard those
calls exercise: http(s) origins, absolute `http(s)://` inputs,
protocol-relative `//` inputs, and path-absolute `/...` inputs, with an
`application/x-www-form-urlencoded` query pair list.  `URL.toString()`
returns the full href serialization `scheme://host/path?query`. -/

/-- Uppercase hexadecimal digit, as used by percent-encoding. -/
def hexDigit (n : Nat) : Char :=
  if n < 10 then Char.ofNat (48 + n) else Char.ofNat (55 + n)

/-- Percent-encode one byte: `%XY` with uppercase hex. -/
def percentByte (b : Nat) : List Char :=
  ['%', hexDigit (b / 16), hexDigit (b % 16)]

/-- UTF-8 encoding of one code point. -/
def utf8Bytes (c : Char) : List Nat :=
  let n := c.toNat
  if n < 128 then [n]
  else if n < 2048 then [192 + n / 64, 128 + n % 64]
  else if n < 65536 then [224 + n / 4096, 128 + (n / 64) % 64, 128 + n % 64]
  else [240 + n / 262144, 128 + (n / 4096) % 64, 128 + (n / 64) % 64, 128 + n % 64]

/-- UTF-8 bytes of a string. -/
def stringBytes (s : String) : List Nat :=
  (s.data.map utf8Bytes).flatten

/-- The characters `encodeURI` leaves unescaped: ASCII alphanumerics
and `- _ . ! ~ * ( ) ; / ? : @ & = + $ , #` together with the
apostrophe (code 39). -/
def isEncodeURIUnescaped (c : Char) : Bool :=
  c.isAlphanum ||
    [45, 95, 46, 33, 126, 42, 39, 40, 41, 59, 47, 63, 58, 64, 38, 61, 43,
      36, 44, 35].contains c.toNat

/-- JavaScript `encodeURI`: percent-encode the UTF-8 bytes of every
character outside the unescaped set. -/
def encodeURI (s : String) : String :=
  String.mk ((s.data.map (fun c =>
    if isEncodeURIUnescaped c then [c]
    else ((utf8Bytes c).map percentByte).flatten)).flatten)

/-- The bytes the `application/x-www-form-urlencoded` serializer leaves
unescaped: ASCII alphanumerics and `* - . _`. -/
def isFormUnescapedByte (b : Nat) : Bool :=
  (48 ≤ b && b ≤ 57) || (65 ≤ b && b ≤ 90) || (97 ≤ b && b ≤ 122) ||
    [42, 45, 46, 95].contains b

/-- `application/x-www-form-urlencoded` serialization of a byte
sequence: space becomes `+`, unescaped bytes stay, the rest are
percent-encoded. -/
def serializeFormBytes (bs : List Nat) : String :=
  String.mk ((bs.map (fun b =>
    if b = 32 then ['+']
    else if isFormUnescapedByte b then [Char.ofNat b]
    else percentByte b)).flatten)

/-- Hexadecimal digit value of a character, if any. -/
def hexVal (c : Char) : Option Nat :=
  let n := c.toNat
  if 48 ≤ n && n ≤ 57 then some (n - 48)
  else if 65 ≤ n && n ≤ 70 then some (n - 55)
  else if 97 ≤ n && n ≤ 102 then some (n - 87)
  else none

/-- `application/x-www-form-urlencoded` decoding of a component into a
byte sequence: `+` is a space, `%XY` is a byte, any other character
contributes its UTF-8 bytes (an ill-formed `%` stays literal). -/
def formDecodeChars : List Char → List Nat
  | [] => []
  | c :: a :: b :: rest =>
    if c.toNat = 37 then
      match hexVal a, hexVal b with
      | some x, some y => (16 * x + y) :: formDecodeChars rest
      | _, _ => 37 :: formDecodeChars (a :: b :: rest)
    else if c.toNat = 43 then 32 :: formDecodeChars (a :: b :: rest)
    else utf8Bytes c ++ formDecodeChars (a :: b :: rest)
  | c :: rest =>
    if c.toNat = 37 then 37 :: formDecodeChars rest
    else if c.toNat = 43 then 32 :: formDecodeChars rest
    else utf8Bytes c ++ formDecodeChars rest

/-- Split a component of a query at its first `=`: decoded name bytes
and decoded value bytes (a component without `=` has an empty value,
matching the URLSearchParams parser). -/
def splitPairChars (acc : List Char) : List Char → List Nat × List Nat
  | [] => (formDecodeChars acc.reverse, [])
  | c :: rest =>
    if c = '=' then (formDecodeChars acc.reverse, formDecodeChars rest)
    else splitPairChars (c :: acc) rest

/-- Parse a raw query string (no leading `?`) into its decoded
name/value byte pairs, skipping empty components. -/
def parseFormPairs (q : String) : List (List Nat × List Nat) :=
  ((splitString (fun c => c = '&') q).filter (fun comp => comp ≠ "")).map
    (fun comp => splitPairChars [] comp.data)

/-- Serialize a pair list back to a raw query string, `&`-separated. -/
def serializeFormPairs : List (List Nat × List Nat) → String
  | [] => ""
  | [p] => serializeFormBytes p.1 ++ "=" ++ serializeFormBytes p.2
  | p :: q :: rest =>
    serializeFormBytes p.1 ++ "=" ++ serializeFormBytes p.2 ++ "&" ++
      serializeFormPairs (q :: rest)

/-- The parsed-URL record: scheme, host, path, and the raw query string
(`none` when the URL has no `?`). -/
structure URLModel where
  scheme : String
  host : String
  pathname : String
  query : Option String
  deriving DecidableEq, Repr

/-- Parse an http(s) origin `scheme://host`. -/
def parseOrigin (origin : String) : Option (String × String) :=
  if startsWithStr origin "https://" then
    let h := origin.drop 8
    if h = "" || containsChar h '/' || containsChar h '?' then none
    else some ("https", h)
  else if startsWithStr origin "http://" then
    let h := origin.drop 7
    if h = "" || containsChar h '/' || containsChar h '?' then none
    else some ("http", h)
  else none

/-- Split `rest` (everything after the `scheme://` of an absolute URL)
into host, path and query: the query starts at the first `?`, the host
ends at the first `/` before it, and an empty path serializes as `/`. -/
def splitHostPathQuery (scheme rest : String) : Option URLModel :=
  match splitString (fun c => c = '?') rest with
  | [] => none
  | beforeQ :: qs =>
    let query := if qs = [] then none else some (String.intercalate "?" qs)
    match splitString (fun c => c = '/') beforeQ with
    | [] => none
    | host :: pathParts =>
      if host = "" then none
      else
        let path :=
          if pathParts = [] then "/"
          else "/" ++ String.intercalate "/" pathParts
        some ⟨scheme, host, path, query⟩

/-- `new URL(input, base)` for the fragment of inputs the provider
uses: absolute `http(s)://` URLs, protocol-relative `//` URLs, and
path-absolute `/...` URLs resolved against an http(s) origin.  `none`
models the constructor throwing. -/
def parseURL (input : String) (baseOrigin : String) : Option URLModel :=
  match parseOrigin baseOrigin with
  | none => none
  | some (bScheme, bHost) =>
    if startsWithStr input "https://" then splitHostPathQuery "https" (input.drop 8)
    else if startsWithStr input "http://" then splitHostPathQuery "http" (input.drop 7)
    else if startsWithStr input "//" then splitHostPathQuery bScheme (input.drop 2)
    else if startsWithStr input "/" then
      match (splitString (fun c => c = '?') input) with
      | [] => some ⟨bScheme, bHost, input, none⟩
      | p :: qs =>
        if qs = [] then some ⟨bScheme, bHost, p, none⟩
        else some ⟨bScheme, bHost, p, some (String.intercalate "?" qs)⟩
    else none

/-- `url.searchParams.has(name)`: some parsed pair has the decoded
name. -/
def urlHasParam (u : URLModel) (name : String) : Bool :=
  match u.query with
  | none => false
  | some q => (parseFormPairs q).any (fun p => p.1 = stringBytes name)

/-- `url.searchParams.append(name, value)`: the pair list gains the
pair and the URL's query becomes the re-serialized list. -/
def appendParam (u : URLModel) (name value : String) : URLModel :=
  let pairs :=
    (match u.query with | none => [] | some q => parseFormPairs q) ++
      [(stringBytes name, stringBytes value)]
  { u with query := some (serializeFormPairs pairs) }

/-- `url.toString()`: the href serialization
`scheme "://" host path ["?" query]`. -/
def urlToString (u : URLModel) : String :=
  u.scheme ++ "://" ++ u.host ++ u.pathname ++
    (match u.query with
     | none => ""
     | some q => "?" ++ q)

/-- `resolveAuthProviderLoginUrl` in a browser environment with the
given `window.location.origin` and `window.location.href`: reject a
blank `loginUrl`, parse it against the origin (a parse failure throws
`INVALID_LOGIN_URL`), append `return_url = encodeURI(href)` when the
query has no `return_url` parameter, and return the serialized URL. -/
def resolveAuthProviderLoginUrl (loginUrl windowOrigin windowHref : String) :
    Except JsError String :=
  if jsTrim loginUrl = "" then
    .error (.wristband .INVALID_LOGIN_URL
      "WristbandAuthProvider: [loginUrl] is required" none)
  else
    match parseURL loginUrl windowOrigin with
    | none =>
      .error (.wristband .INVALID_LOGIN_URL
        ("WristbandAuthProvider: [" ++ loginUrl ++ "] is not a valid loginUrl") none)
    | some u =>
      if urlHasParam u "return_url" then .ok (urlToString u)
      else .ok (urlToString (appendParam u "return_url" (encodeURI windowHref)))

/-! ## Theorems -/

/-- Substructure facts used throughout: installing or clearing the
in-flight marker does not change the cache-validity test. -/
theorem isCacheValid_set_request (st : TokenEngineState) (id : Option Nat) (t : Int) :
    isCacheValid { st with tokenRequest := id } t = isCacheValid st t := rfl

/-- A retriable error is not a `WristbandError`, not a 401, and not a
4xx. -/
theorem retriable_parts (e : JsError) (h : isRetriableFailure e = true) :
    isWristbandError e = false ∧ isUnauthorizedError e = false ∧
      is4xxError e = false := by
  simp only [isRetriableFailure, Bool.and_eq_true, Bool.not_eq_true'] at h
  exact ⟨h.1.1, h.1.2, h.2⟩

/-- A 401 error is an `ApiError`, hence not a `WristbandError`. -/
theorem unauthorized_not_wristband (e : JsError) (h : isUnauthorizedError e = true) :
    isWristbandError e = false := by
  cases e <;> simp_all [isUnauthorizedError, isHttpStatusError, isWristbandError]

/-- While a token request is in flight, every `getToken()` call whose
preconditions pass and whose cache check misses joins that request:
same promise, no state change, no new network request. -/
theorem getTokenStart_joins (st : TokenEngineState) (t : Int) (fid p : Nat)
    (hurl : jsTrim st.validatedTokenUrl ≠ "") (hauth : st.isAuthenticated = true)
    (hreq : st.tokenRequest = some p) (hcache : isCacheValid st t = false) :
    getTokenStart st t fid = (.pending p, st, 0) := by
  simp [getTokenStart, hurl, hauth, hcache, hreq]

/-- Iterating `getTokenCalls` while the marker holds `p` and the cache
stays invalid returns the same pending promise every time and starts no
request. -/
theorem getTokenCalls_joined (n : Nat) :
    ∀ (st : TokenEngineState) (now : Nat → Int) (fid p : Nat),
    jsTrim st.validatedTokenUrl ≠ "" → st.isAuthenticated = true →
    st.tokenRequest = some p → (∀ i, isCacheValid st (now i) = false) →
    getTokenCalls st now fid n = (List.replicate n (.pending p), st, 0) := by
  induction n with
  | zero => intro st now fid p _ _ _ _; rfl
  | succ n ih =>
    intro st now fid p hurl hauth hreq hcache
    have hstart := getTokenStart_joins st (now 0) fid p hurl hauth hreq (hcache 0)
    simp only [getTokenCalls, hstart]
    rw [ih st (fun i => now (i + 1)) (fid + 0) p hurl hauth hreq
      (fun i => hcache (i + 1))]
    simp [List.replicate]

/-- Claim C1: if `getToken()` is called `N ≥ 1` times while the caller
is authenticated, the token URL is configured, no cached token is valid
at any of the calls' clock readings, and no call is separated from the
first by the settlement of its fetch, then exactly one network request
is started and every call returns the same pending promise (hence all
`N` calls resolve to the identical token value); and in general, while
the in-flight slot holds a request `p`, every `getToken()` call that
cannot be served from cache returns that same pending request without
starting a new fetch. -/
theorem c1_token_request_dedup (st : TokenEngineState) (now : Nat → Int)
    (fid N : Nat)
    (hurl : jsTrim st.validatedTokenUrl ≠ "")
    (hauth : st.isAuthenticated = true)
    (hnone : st.tokenRequest = none)
    (hcache : ∀ i, isCacheValid st (now i) = false)
    (hN : 1 ≤ N) :
    getTokenCalls st now fid N =
      (List.replicate N (.pending fid), { st with tokenRequest := some fid }, 1) ∧
    (∀ (st2 : TokenEngineState) (t : Int) (fid2 p : Nat),
      jsTrim st2.validatedTokenUrl ≠ "" → st2.isAuthenticated = true →
      st2.tokenRequest = some p → isCacheValid st2 t = false →
      getTokenStart st2 t fid2 = (.pending p, st2, 0)) := by
  constructor
  · obtain ⟨n, rfl⟩ : ∃ n, N = n + 1 :=
      ⟨N - 1, (Nat.succ_pred_eq_of_pos hN).symm⟩
    have hstart : getTokenStart st (now 0) fid =
        (.pending fid, { st with tokenRequest := some fid }, 1) := by
      simp [getTokenStart, hurl, hauth, hcache 0, hnone]
    simp only [getTokenCalls, hstart]
    rw [getTokenCalls_joined n { st with tokenRequest := some fid }
      (fun i => now (i + 1)) (fid + 1) fid hurl hauth rfl
      (fun i => hcache (i + 1))]
    simp [List.replicate]
  · intro st2 t fid2 p h1 h2 h3 h4
    exact getTokenStart_joins st2 t fid2 p h1 h2 h3 h4

/-- Witness for C1 at a concrete state: authenticated, token URL
configured, empty cache, no in-flight request, three calls. -/
theorem c1_witness :
    getTokenCalls ⟨"/api/auth/token", true, "", 0, none⟩ (fun _ => 1000) 0 3 =
      (List.replicate 3 (.pending 0),
        ⟨"/api/auth/token", true, "", 0, some 0⟩, 1) :=
  (c1_token_request_dedup ⟨"/api/auth/token", true, "", 0, none⟩ (fun _ => 1000)
    0 3 (by decide) rfl rfl (fun _ => rfl) (by decide)).1

/-- Claim C5: for an authenticated `getToken()` call with a configured
token URL, a non-empty cached token and no in-flight request, the
cached value is returned with zero network requests exactly when
`now + 30000 < expiresAt`; a token with `expiresAt = now + 31000` is
served from cache, one with `expiresAt = now + 29000` starts a new
fetch. -/
theorem c5_cache_validity (st : TokenEngineState) (now : Int) (fid : Nat)
    (hurl : jsTrim st.validatedTokenUrl ≠ "")
    (hauth : st.isAuthenticated = true)
    (htok : st.accessToken ≠ "")
    (hreq : st.tokenRequest = none) :
    (getTokenStart st now fid =
        (.cachedToken st.accessToken, st, 0) ↔
      now + TOKEN_EXPIRATION_BUFFER_TIME_MS < st.accessTokenExpiresAt) ∧
    (st.accessTokenExpiresAt = now + 31000 →
      getTokenStart st now fid = (.cachedToken st.accessToken, st, 0)) ∧
    (st.accessTokenExpiresAt = now + 29000 →
      getTokenStart st now fid =
        (.pending fid, { st with tokenRequest := some fid }, 1)) := by
  have hie : st.accessToken.isEmpty = false := by
    cases hh : st.accessToken.isEmpty
    · rfl
    · exact absurd ((String.isEmpty_iff st.accessToken).mp hh) htok
  have hcv : isCacheValid st now =
      decide (now + TOKEN_EXPIRATION_BUFFER_TIME_MS < st.accessTokenExpiresAt) := by
    simp [isCacheValid, hie]
  refine ⟨?_, ?_, ?_⟩
  · by_cases hlt : now + TOKEN_EXPIRATION_BUFFER_TIME_MS < st.accessTokenExpiresAt
    · simp [getTokenStart, hurl, hauth, hcv, hlt]
    · simp [getTokenStart, hurl, hauth, hcv, hlt, hreq]
  · intro hexp
    have hlt : now + TOKEN_EXPIRATION_BUFFER_TIME_MS < st.accessTokenExpiresAt := by
      rw [hexp]; simp [TOKEN_EXPIRATION_BUFFER_TIME_MS]
    simp [getTokenStart, hurl, hauth, hcv, hlt]
  · intro hexp
    have hlt : ¬ (now + TOKEN_EXPIRATION_BUFFER_TIME_MS < st.accessTokenExpiresAt) := by
      rw [hexp]; simp [TOKEN_EXPIRATION_BUFFER_TIME_MS]
    simp [getTokenStart, hurl, hauth, hcv, hlt, hreq]

/-- Witness for C5 at a concrete state (`expiresAt = now + 31000`):
the cached token is returned unchanged. -/
theorem c5_witness :
    getTokenStart ⟨"/api/auth/token", true, "tok", 43000, none⟩ 12000 7 =
      (.cachedToken "tok", ⟨"/api/auth/token", true, "tok", 43000, none⟩, 0) :=
  (c5_cache_validity ⟨"/api/auth/token", true, "tok", 43000, none⟩ 12000 7
    (by decide) rfl (by decide) rfl).2.1 (by decide)

/-- Claim C2: when every attempt of the session endpoint and of the
token endpoint fails with a retriable error (5xx / network failure),
`fetchSession` and the token request each make exactly 3 calls with a
100ms delay between consecutive attempts, then fail terminally with
`SESSION_FETCH_FAILED` / `TOKEN_FETCH_FAILED` wrapping the last
underlying error as the original cause. -/
theorem c2_retry_bound (env : SessionEnv) (eS : Nat → JsError)
    (tokenRespAt : Nat → FetchResult TokenResponse) (eT : Nat → JsError)
    (hS : ∀ n, env.respAt n = .err (eS n))
    (hSr : ∀ n, isRetriableFailure (eS n) = true)
    (hT : ∀ n, tokenRespAt n = .err (eT n))
    (hTr : ∀ n, isRetriableFailure (eT n) = true) :
    fetchSession env =
      (.failed (.wristband .SESSION_FETCH_FAILED "Failed to fetch session"
          (some (eS 3))),
        [.sessionCall 1, .retryDelay 100, .sessionCall 2, .retryDelay 100,
         .sessionCall 3]) ∧
    getTokenRequest tokenRespAt =
      (.error (.wristband .TOKEN_FETCH_FAILED "Failed to fetch token"
          (some (eT 3))),
        none,
        [.tokenCall 1, .retryDelay 100, .tokenCall 2, .retryDelay 100,
         .tokenCall 3]) := by
  have hSw := fun n => (retriable_parts _ (hSr n)).1
  have hSu := fun n => (retriable_parts _ (hSr n)).2.1
  have hS4 := fun n => (retriable_parts _ (hSr n)).2.2
  have hTw := fun n => (retriable_parts _ (hTr n)).1
  have hTu := fun n => (retriable_parts _ (hTr n)).2.1
  have hT4 := fun n => (retriable_parts _ (hTr n)).2.2
  constructor
  · simp [fetchSession, fetchSessionGo, hS, hSw, hSu, hS4,
      MAX_API_ATTEMPTS, API_RETRY_DELAY_MS]
  · simp [getTokenRequest, getTokenLoop, hT, hTw, hTu, hT4,
      MAX_API_ATTEMPTS, API_RETRY_DELAY_MS]

/-- Witness for C2: both endpoints return 503 on every attempt. -/
theorem c2_witness :
    fetchSession ⟨fun _ => .err (.apiError (some 503)), none, none⟩ =
      (.failed (.wristband .SESSION_FETCH_FAILED "Failed to fetch session"
          (some (.apiError (some 503)))),
        [.sessionCall 1, .retryDelay 100, .sessionCall 2, .retryDelay 100,
         .sessionCall 3]) ∧
    getTokenRequest (fun _ => .err (.apiError (some 503))) =
      (.error (.wristband .TOKEN_FETCH_FAILED "Failed to fetch token"
          (some (.apiError (some 503)))),
        none,
        [.tokenCall 1, .retryDelay 100, .tokenCall 2, .retryDelay 100,
         .tokenCall 3]) :=
  c2_retry_bound ⟨fun _ => .err (.apiError (some 503)), none, none⟩
    (fun _ => .apiError (some 503)) (fun _ => .err (.apiError (some 503)))
    (fun _ => .apiError (some 503)) (fun _ => rfl) (fun _ => rfl)
    (fun _ => rfl) (fun _ => rfl)

/-- Claim C3: a 401 from the session endpoint or the token endpoint
results in exactly one call (no retry) and an `UNAUTHENTICATED`
classification wrapping the original error; in the token case the
cached token value and expiry are additionally cleared (the cache
effect is `⟨"", 0⟩`, emitted before the rejection) so that the cache is
empty in any state the settlement is applied to. -/
theorem c3_unauthorized_short_circuit (env : SessionEnv) (e : JsError)
    (tokenRespAt : Nat → FetchResult TokenResponse) (e2 : JsError)
    (cur : TokenEngineState)
    (hS : env.respAt 1 = .err e) (h401 : isUnauthorizedError e = true)
    (hT : tokenRespAt 1 = .err e2) (h401t : isUnauthorizedError e2 = true) :
    fetchSession env =
      (.failed (.wristband .UNAUTHENTICATED "User is not authenticated" (some e)),
        [.sessionCall 1]) ∧
    getTokenRequest tokenRespAt =
      (.error (.wristband .UNAUTHENTICATED "Token request unauthorized" (some e2)),
        some ⟨"", 0⟩, [.tokenCall 1, .cacheCleared]) ∧
    (applyTokenSettle cur (some ⟨"", 0⟩)).accessToken = "" ∧
    (applyTokenSettle cur (some ⟨"", 0⟩)).accessTokenExpiresAt = 0 := by
  refine ⟨?_, ?_, rfl, rfl⟩
  · simp [fetchSession, fetchSessionGo, hS, unauthorized_not_wristband e h401,
      h401, MAX_API_ATTEMPTS]
  · simp [getTokenRequest, getTokenLoop, hT,
      unauthorized_not_wristband e2 h401t, h401t, MAX_API_ATTEMPTS]

/-- Witness for C3: both endpoints return 401 on the first attempt;
the settlement is applied to a state still holding a cached token. -/
theorem c3_witness :
    fetchSession ⟨fun _ => .err (.apiError (some 401)), none, none⟩ =
      (.failed (.wristband .UNAUTHENTICATED "User is not authenticated"
          (some (.apiError (some 401)))),
        [.sessionCall 1]) ∧
    getTokenRequest (fun _ => .err (.apiError (some 401))) =
      (.error (.wristband .UNAUTHENTICATED "Token request unauthorized"
          (some (.apiError (some 401)))),
        some ⟨"", 0⟩, [.tokenCall 1, .cacheCleared]) ∧
    (applyTokenSettle ⟨"/t", true, "old", 99999, some 0⟩ (some ⟨"", 0⟩)).accessToken
        = "" ∧
    (applyTokenSettle ⟨"/t", true, "old", 99999, some 0⟩
        (some ⟨"", 0⟩)).accessTokenExpiresAt = 0 :=
  c3_unauthorized_short_circuit ⟨fun _ => .err (.apiError (some 401)), none, none⟩
    (.apiError (some 401)) (fun _ => .err (.apiError (some 401)))
    (.apiError (some 401)) ⟨"/t", true, "old", 99999, some 0⟩
    rfl rfl rfl rfl

/-- Claim C4: a first session response with a missing/blank `userId` or
`tenantId` makes the bootstrap fail immediately and permanently with a
thrown `INVALID_SESSION_RESPONSE`: exactly one endpoint call, no retry,
no state commit, and — whether or not redirect is disabled — the error
is rethrown out of the bootstrap rather than stored or redirected. -/
theorem c4_invalid_session_response (env : SessionEnv) (resp : SessionResponse)
    (d : Bool) (url : String)
    (hresp : env.respAt 1 = .ok resp)
    (hblank : isBlankOpt resp.userId = true ∨ isBlankOpt resp.tenantId = true) :
    fetchSession env =
      (.thrown (.wristband .INVALID_SESSION_RESPONSE
          (if isBlankOpt resp.userId then
            "Session Endpoint response is missing required field: \"userId\""
          else
            "Session Endpoint response is missing required field: \"tenantId\"") none),
        [.sessionCall 1]) ∧
    runBootstrap env d url =
      (.thrownOut (.wristband .INVALID_SESSION_RESPONSE
          (if isBlankOpt resp.userId then
            "Session Endpoint response is missing required field: \"userId\""
          else
            "Session Endpoint response is missing required field: \"tenantId\"") none),
        [.sessionCall 1]) := by
  by_cases hu : isBlankOpt resp.userId = true
  · have hfs : fetchSession env =
        (.thrown (.wristband .INVALID_SESSION_RESPONSE
            "Session Endpoint response is missing required field: \"userId\"" none),
          [.sessionCall 1]) := by
      simp [fetchSession, fetchSessionGo, hresp, hu, MAX_API_ATTEMPTS]
    refine ⟨by simp [hfs, hu], ?_⟩
    simp [runBootstrap, hfs, hu]
  · have ht : isBlankOpt resp.tenantId = true := by
      rcases hblank with h | h
      · exact absurd h hu
      · exact h
    have hu2 : isBlankOpt resp.userId = false := by
      cases h : isBlankOpt resp.userId
      · rfl
      · exact absurd h hu
    have hfs : fetchSession env =
        (.thrown (.wristband .INVALID_SESSION_RESPONSE
            "Session Endpoint response is missing required field: \"tenantId\"" none),
          [.sessionCall 1]) := by
      simp [fetchSession, fetchSessionGo, hresp, hu2, ht, MAX_API_ATTEMPTS]
    refine ⟨by simp [hfs, hu2], ?_⟩
    simp [runBootstrap, hfs, hu2]

/-- Witness for C4: a session response with a whitespace-only `userId`. -/
theorem c4_witness :
    runBootstrap ⟨fun _ => .ok ⟨some "  ", some "t1", none⟩, none, none⟩ false
        "/login" =
      (.thrownOut (.wristband .INVALID_SESSION_RESPONSE
          "Session Endpoint response is missing required field: \"userId\"" none),
        [.sessionCall 1]) := by
  have h := (c4_invalid_session_response
    ⟨fun _ => .ok ⟨some "  ", some "t1", none⟩, none, none⟩
    ⟨some "  ", some "t1", none⟩ false "/login" rfl (Or.inl (by decide))).2
  simpa using h

/-- Claim C9: when a configured `onSessionSuccess` hook rejects with an
error that is neither a `WristbandError` nor a 401/4xx `ApiError`, the
bootstrap treats the failure as transient: each attempt re-calls the
session endpoint and re-invokes the hook after the 100ms delay, up to
the 3-attempt limit, before failing with `SESSION_FETCH_FAILED`
wrapping the last hook error. -/
theorem c9_hook_error_is_retried (env : SessionEnv)
    (h : SessionResponse → Except JsError Unit)
    (resp : Nat → SessionResponse) (e : Nat → JsError)
    (hh : env.onSessionSuccess = some h)
    (hresp : ∀ n, env.respAt n = .ok (resp n))
    (hu : ∀ n, isBlankOpt (resp n).userId = false)
    (ht : ∀ n, isBlankOpt (resp n).tenantId = false)
    (hhe : ∀ n, h (resp n) = .error (e n))
    (hr : ∀ n, isRetriableFailure (e n) = true) :
    fetchSession env =
      (.failed (.wristband .SESSION_FETCH_FAILED "Failed to fetch session"
          (some (e 3))),
        [.sessionCall 1, .hookStart (resp 1), .retryDelay 100,
         .sessionCall 2, .hookStart (resp 2), .retryDelay 100,
         .sessionCall 3, .hookStart (resp 3)]) := by
  have hw := fun n => (retriable_parts _ (hr n)).1
  have hun := fun n => (retriable_parts _ (hr n)).2.1
  have h4 := fun n => (retriable_parts _ (hr n)).2.2
  simp [fetchSession, fetchSessionGo, hresp, hu, ht, hh, hhe, hw, hun, h4,
    MAX_API_ATTEMPTS, API_RETRY_DELAY_MS]

/-- Witness for C9: valid responses, a hook that always rejects with a
network-style error. -/
theorem c9_witness :
    fetchSession ⟨fun _ => .ok ⟨some "u1", some "t1", none⟩,
        some (fun _ => .error (.generic "NetworkError")), none⟩ =
      (.failed (.wristband .SESSION_FETCH_FAILED "Failed to fetch session"
          (some (.generic "NetworkError"))),
        [.sessionCall 1, .hookStart ⟨some "u1", some "t1", none⟩, .retryDelay 100,
         .sessionCall 2, .hookStart ⟨some "u1", some "t1", none⟩, .retryDelay 100,
         .sessionCall 3, .hookStart ⟨some "u1", some "t1", none⟩]) :=
  c9_hook_error_is_retried
    ⟨fun _ => .ok ⟨some "u1", some "t1", none⟩,
      some (fun _ => .error (.generic "NetworkError")), none⟩
    (fun _ => .error (.generic "NetworkError"))
    (fun _ => ⟨some "u1", some "t1", none⟩) (fun _ => .generic "NetworkError")
    rfl (fun _ => rfl) (fun _ => rfl) (fun _ => rfl)
    (fun _ => rfl) (fun _ => rfl)

/-- Once a `hookResolved` has been seen, the scan accepts any suffix. -/
theorem commitsAfterHook_of_seen (l : List Ev) : commitsAfterHook l true = true := by
  induction l with
  | nil => rfl
  | cons e t ih => cases e <;> simp [commitsAfterHook, ih]

/-- The commit events of `sessionCommit` are accepted once the hook has
resolved. -/
theorem commitsAfterHook_sessionCommit (env : SessionEnv) (resp : SessionResponse) :
    commitsAfterHook (sessionCommit env resp).2 true = true :=
  commitsAfterHook_of_seen _

/-- In every `fetchSessionGo` trace of a bootstrap with a configured
`onSessionSuccess` hook, every state-commit event is preceded by the
hook's resolution. -/
theorem commitsAfterHook_go (env : SessionEnv)
    (h : SessionResponse → Except JsError Unit)
    (hh : env.onSessionSuccess = some h) :
    ∀ (r a : Nat), commitsAfterHook (fetchSessionGo env a r).2 false = true := by
  intro r
  induction r with
  | zero => intro a; rfl
  | succ r ih =>
    intro a
    cases hresp : env.respAt a with
    | ok resp =>
      by_cases hu : isBlankOpt resp.userId = true
      · simp [fetchSessionGo, hresp, hu, commitsAfterHook]
      · have hu2 : isBlankOpt resp.userId = false := by
          cases h2 : isBlankOpt resp.userId
          · rfl
          · exact absurd h2 hu
        by_cases htn : isBlankOpt resp.tenantId = true
        · simp [fetchSessionGo, hresp, hu2, htn, commitsAfterHook]
        · have ht2 : isBlankOpt resp.tenantId = false := by
            cases h2 : isBlankOpt resp.tenantId
            · rfl
            · exact absurd h2 htn
          cases hhr : h resp with
          | ok u =>
            simp [fetchSessionGo, hresp, hu2, ht2, hh, hhr, commitsAfterHook,
              commitsAfterHook_of_seen]
          | error e =>
            by_cases hw : isWristbandError e = true
            · simp [fetchSessionGo, hresp, hu2, ht2, hh, hhr, hw, commitsAfterHook]
            · by_cases h401 : isUnauthorizedError e = true
              · simp [fetchSessionGo, hresp, hu2, ht2, hh, hhr, hw, h401,
                  commitsAfterHook]
              · by_cases h4 : is4xxError e = true
                · simp [fetchSessionGo, hresp, hu2, ht2, hh, hhr, hw, h401, h4,
                    commitsAfterHook]
                · by_cases hmax : a = MAX_API_ATTEMPTS
                  · subst hmax
                    simp [fetchSessionGo, hresp, hu2, ht2, hh, hhr, hw, h401, h4,
                      commitsAfterHook]
                  · simp [fetchSessionGo, hresp, hu2, ht2, hh, hhr, hw, h401, h4,
                      hmax, commitsAfterHook, ih (a + 1)]
    | err e =>
      by_cases hw : isWristbandError e = true
      · simp [fetchSessionGo, hresp, hw, commitsAfterHook]
      · by_cases h401 : isUnauthorizedError e = true
        · simp [fetchSessionGo, hresp, hw, h401, commitsAfterHook]
        · by_cases h4 : is4xxError e = true
          · simp [fetchSessionGo, hresp, hw, h401, h4, commitsAfterHook]
          · by_cases hmax : a = MAX_API_ATTEMPTS
            · subst hmax
              simp [fetchSessionGo, hresp, hw, h401, h4, commitsAfterHook]
            · simp [fetchSessionGo, hresp, hw, h401, h4, hmax, commitsAfterHook,
                ih (a + 1)]

/-- When `fetchSessionGo` commits, the hook was invoked with the raw
response of the committing attempt. -/
theorem hookStart_mem_go (env : SessionEnv)
    (h : SessionResponse → Except JsError Unit)
    (hh : env.onSessionSuccess = some h) :
    ∀ (r a : Nat) (resp : SessionResponse) (c : CommitData),
      (fetchSessionGo env a r).1 = .committed resp c →
      Ev.hookStart resp ∈ (fetchSessionGo env a r).2 := by
  intro r
  induction r with
  | zero => intro a resp c hc; exact absurd hc (by simp [fetchSessionGo])
  | succ r ih =>
    intro a resp c hc
    cases hresp : env.respAt a with
    | ok resp2 =>
      by_cases hu : isBlankOpt resp2.userId = true
      · rw [fetchSessionGo] at hc ⊢
        simp [hresp, hu] at hc
      · have hu2 : isBlankOpt resp2.userId = false := by
          cases h2 : isBlankOpt resp2.userId
          · rfl
          · exact absurd h2 hu
        by_cases htn : isBlankOpt resp2.tenantId = true
        · rw [fetchSessionGo] at hc
          simp [hresp, hu2, htn] at hc
        · have ht2 : isBlankOpt resp2.tenantId = false := by
            cases h2 : isBlankOpt resp2.tenantId
            · rfl
            · exact absurd h2 htn
          cases hhr : h resp2 with
          | ok u =>
            rw [fetchSessionGo] at hc ⊢
            simp [hresp, hu2, ht2, hh, hhr] at hc ⊢
            obtain ⟨h1, h2⟩ := hc
            subst h1
            simp
          | error e =>
            by_cases hw : isWristbandError e = true
            · rw [fetchSessionGo] at hc
              simp [hresp, hu2, ht2, hh, hhr, hw] at hc
            · by_cases h401 : isUnauthorizedError e = true
              · rw [fetchSessionGo] at hc
                simp [hresp, hu2, ht2, hh, hhr, hw, h401] at hc
              · by_cases h4 : is4xxError e = true
                · rw [fetchSessionGo] at hc
                  simp [hresp, hu2, ht2, hh, hhr, hw, h401, h4] at hc
                · by_cases hmax : a = MAX_API_ATTEMPTS
                  · subst hmax
                    rw [fetchSessionGo] at hc
                    simp [hresp, hu2, ht2, hh, hhr, hw, h401, h4] at hc
                  · rw [fetchSessionGo] at hc ⊢
                    simp only [hresp, hu2, ht2, hh, hhr, hw, h401, h4, hmax,
                      if_false, if_neg, Bool.false_eq_true] at hc ⊢
                    have := ih (a + 1) resp c (by
                      simpa [hresp, hu2, ht2, hh, hhr, hw, h401, h4, hmax] using hc)
                    simp [this]
    | err e =>
      by_cases hw : isWristbandError e = true
      · rw [fetchSessionGo] at hc
        simp [hresp, hw] at hc
      · by_cases h401 : isUnauthorizedError e = true
        · rw [fetchSessionGo] at hc
          simp [hresp, hw, h401] at hc
        · by_cases h4 : is4xxError e = true
          · rw [fetchSessionGo] at hc
            simp [hresp, hw, h401, h4] at hc
          · by_cases hmax : a = MAX_API_ATTEMPTS
            · subst hmax
              rw [fetchSessionGo] at hc
              simp [hresp, hw, h401, h4] at hc
            · rw [fetchSessionGo] at hc ⊢
              have := ih (a + 1) resp c (by
                simpa [hresp, hw, h401, h4, hmax] using hc)
              simp [hresp, hw, h401, h4, hmax, this]

/-- Claim C6: with a configured `onSessionSuccess` hook, every
state-commit event in the bootstrap trace is preceded by the hook's
awaited resolution (no observer sees the authenticated commit before
the hook's result has resolved), and on a committed bootstrap the hook
was invoked with the raw session response. -/
theorem c6_hook_before_commit (env : SessionEnv)
    (h : SessionResponse → Except JsError Unit)
    (hh : env.onSessionSuccess = some h) :
    commitsAfterHook (fetchSession env).2 false = true ∧
    (∀ (resp : SessionResponse) (c : CommitData),
      (fetchSession env).1 = .committed resp c →
      Ev.hookStart resp ∈ (fetchSession env).2) := by
  refine ⟨commitsAfterHook_go env h hh MAX_API_ATTEMPTS 1, ?_⟩
  intro resp c hc
  exact hookStart_mem_go env h hh MAX_API_ATTEMPTS 1 resp c hc

/-- Witness for C6: a configured hook that resolves, a valid response;
the ordering scan passes and the hook-invocation event is in the
trace. -/
theorem c6_witness :
    commitsAfterHook (fetchSession ⟨fun _ => .ok ⟨some "u1", some "t1", none⟩,
        some (fun _ => .ok ()), none⟩).2 false = true ∧
    Ev.hookStart ⟨some "u1", some "t1", none⟩ ∈
      (fetchSession ⟨fun _ => .ok ⟨some "u1", some "t1", none⟩,
        some (fun _ => .ok ()), none⟩).2 :=
  ⟨(c6_hook_before_commit ⟨fun _ => .ok ⟨some "u1", some "t1", none⟩,
      some (fun _ => .ok ()), none⟩ (fun _ => .ok ()) rfl).1,
    (c6_hook_before_commit ⟨fun _ => .ok ⟨some "u1", some "t1", none⟩,
      some (fun _ => .ok ()), none⟩ (fun _ => .ok ()) rfl).2
      ⟨some "u1", some "t1", none⟩ _ rfl⟩

/-- When `fetchSessionGo` commits for a response with JS-falsy
metadata, the commit skips `setMetadata`, never calls the transform,
and still commits the identity and flag fields. -/
theorem metadata_frame_go (env : SessionEnv) :
    ∀ (r a : Nat) (resp : SessionResponse) (c : CommitData),
      (fetchSessionGo env a r).1 = .committed resp c →
      resp.metadata = none →
      c = ⟨none, resp.tenantId.getD "", resp.userId.getD "", true, false, none⟩ ∧
      (∀ raw, Ev.transformCall raw ∉ (fetchSessionGo env a r).2) := by
  intro r
  induction r with
  | zero => intro a resp c hc _; exact absurd hc (by simp [fetchSessionGo])
  | succ r ih =>
    intro a resp c hc hm
    cases hresp : env.respAt a with
    | ok resp2 =>
      by_cases hu : isBlankOpt resp2.userId = true
      · rw [fetchSessionGo] at hc
        simp [hresp, hu] at hc
      · have hu2 : isBlankOpt resp2.userId = false := by
          cases h2 : isBlankOpt resp2.userId
          · rfl
          · exact absurd h2 hu
        by_cases htn : isBlankOpt resp2.tenantId = true
        · rw [fetchSessionGo] at hc
          simp [hresp, hu2, htn] at hc
        · have ht2 : isBlankOpt resp2.tenantId = false := by
            cases h2 : isBlankOpt resp2.tenantId
            · rfl
            · exact absurd h2 htn
          cases hhook : env.onSessionSuccess with
          | none =>
            rw [fetchSessionGo] at hc ⊢
            simp [hresp, hu2, ht2, hhook] at hc ⊢
            obtain ⟨h1, h2⟩ := hc
            subst h1
            rw [← h2]
            constructor
            · simp [sessionCommit, hm]
            · intro raw
              simp [sessionCommit, hm]
          | some hook =>
            cases hhr : hook resp2 with
            | ok u =>
              rw [fetchSessionGo] at hc ⊢
              simp [hresp, hu2, ht2, hhook, hhr] at hc ⊢
              obtain ⟨h1, h2⟩ := hc
              subst h1
              rw [← h2]
              constructor
              · simp [sessionCommit, hm]
              · intro raw
                simp [sessionCommit, hm]
            | error e =>
              by_cases hw : isWristbandError e = true
              · rw [fetchSessionGo] at hc
                simp [hresp, hu2, ht2, hhook, hhr, hw] at hc
              · by_cases h401 : isUnauthorizedError e = true
                · rw [fetchSessionGo] at hc
                  simp [hresp, hu2, ht2, hhook, hhr, hw, h401] at hc
                · by_cases h4 : is4xxError e = true
                  · rw [fetchSessionGo] at hc
                    simp [hresp, hu2, ht2, hhook, hhr, hw, h401, h4] at hc
                  · by_cases hmax : a = MAX_API_ATTEMPTS
                    · subst hmax
                      rw [fetchSessionGo] at hc
                      simp [hresp, hu2, ht2, hhook, hhr, hw, h401, h4] at hc
                    · rw [fetchSessionGo] at hc ⊢
                      have hrec := ih (a + 1) resp c (by
                        simpa [hresp, hu2, ht2, hhook, hhr, hw, h401, h4, hmax]
                          using hc) hm
                      refine ⟨hrec.1, ?_⟩
                      intro raw
                      simp [hresp, hu2, ht2, hhook, hhr, hw, h401, h4, hmax,
                        hrec.2 raw]
    | err e =>
      by_cases hw : isWristbandError e = true
      · rw [fetchSessionGo] at hc
        simp [hresp, hw] at hc
      · by_cases h401 : isUnauthorizedError e = true
        · rw [fetchSessionGo] at hc
          simp [hresp, hw, h401] at hc
        · by_cases h4 : is4xxError e = true
          · rw [fetchSessionGo] at hc
            simp [hresp, hw, h401, h4] at hc
          · by_cases hmax : a = MAX_API_ATTEMPTS
            · subst hmax
              rw [fetchSessionGo] at hc
              simp [hresp, hw, h401, h4] at hc
            · rw [fetchSessionGo] at hc ⊢
              have hrec := ih (a + 1) resp c (by
                simpa [hresp, hw, h401, h4, hmax] using hc) hm
              refine ⟨hrec.1, ?_⟩
              intro raw
              simp [hresp, hw, h401, h4, hmax, hrec.2 raw]

/-- Claim C10: a successful bootstrap whose session response has an
absent/falsy `metadata` field never invokes `transformSessionMetadata`
and leaves the metadata state at its initial empty-object value, while
still committing `userId`, `tenantId`, `isAuthenticated = true`,
`isLoading = false` and `error = null`. -/
theorem c10_metadata_frame (env : SessionEnv) (resp : SessionResponse)
    (c : CommitData)
    (hc : (fetchSession env).1 = .committed resp c)
    (hm : resp.metadata = none) :
    c.metadataUpdate = none ∧
    (applyCommit initialSessionState c).metadata = [] ∧
    c.tenantId = resp.tenantId.getD "" ∧
    c.userId = resp.userId.getD "" ∧
    c.isAuthenticated = true ∧
    c.isLoading = false ∧
    c.authError = none ∧
    (∀ raw, Ev.transformCall raw ∉ (fetchSession env).2) := by
  have h := metadata_frame_go env MAX_API_ATTEMPTS 1 resp c hc hm
  rw [h.1]
  exact ⟨rfl, rfl, rfl, rfl, rfl, rfl, rfl, h.2⟩

/-- Witness for C10: a session response without metadata, a transform
configured but never called. -/
theorem c10_witness :
    ((fetchSession ⟨fun _ => .ok ⟨some "u1", some "t1", none⟩, none,
        some (fun m => m)⟩).1 =
      .committed ⟨some "u1", some "t1", none⟩
        ⟨none, "t1", "u1", true, false, none⟩) ∧
    (applyCommit initialSessionState
      ⟨none, "t1", "u1", true, false, none⟩).metadata = [] :=
  ⟨rfl,
    (c10_metadata_frame ⟨fun _ => .ok ⟨some "u1", some "t1", none⟩, none,
      some (fun m => m)⟩ ⟨some "u1", some "t1", none⟩
      ⟨none, "t1", "u1", true, false, none⟩ rfl rfl).2.1⟩

/-- A token-request run that resolves with a token always carries the
cache write of that token (with some non-negative expiry). -/
theorem getTokenLoop_ok_effect :
    ∀ (r a : Nat) (respAt : Nat → FetchResult TokenResponse) (tok : String),
      (getTokenLoop respAt a r).1 = .ok tok →
      ∃ exp : Int, 0 ≤ exp ∧ (getTokenLoop respAt a r).2.1 = some ⟨tok, exp⟩ := by
  intro r
  induction r with
  | zero =>
    intro a respAt tok hok
    exact absurd hok (by simp [getTokenLoop])
  | succ r ih =>
    intro a respAt tok hok
    cases hresp : respAt a with
    | ok resp =>
      by_cases hb : isBlankOpt resp.accessToken = true
      · rw [getTokenLoop] at hok
        simp [hresp, hb] at hok
      · have hb2 : isBlankOpt resp.accessToken = false := by
          cases h2 : isBlankOpt resp.accessToken
          · rfl
          · exact absurd h2 hb
        cases hexp : resp.expiresAt with
        | none =>
          rw [getTokenLoop] at hok
          simp [hresp, hb2, hexp] at hok
        | some exp =>
          by_cases hneg : exp < 0
          · rw [getTokenLoop] at hok
            simp [hresp, hb2, hexp, hneg] at hok
          · rw [getTokenLoop] at hok ⊢
            simp [hresp, hb2, hexp, hneg] at hok ⊢
            exact ⟨by omega, hok⟩
    | err e =>
      by_cases hw : isWristbandError e = true
      · rw [getTokenLoop] at hok
        simp [hresp, hw] at hok
      · by_cases h401 : isUnauthorizedError e = true
        · rw [getTokenLoop] at hok
          simp [hresp, hw, h401] at hok
        · by_cases h4 : is4xxError e = true
          · rw [getTokenLoop] at hok
            simp [hresp, hw, h401, h4] at hok
          · by_cases hmax : a = MAX_API_ATTEMPTS
            · subst hmax
              rw [getTokenLoop] at hok
              simp [hresp, hw, h401, h4] at hok
            · rw [getTokenLoop] at hok ⊢
              simp only [hresp] at hok ⊢
              have := ih (a + 1) respAt tok (by
                simpa [hw, h401, h4, hmax] using hok)
              simpa [hw, h401, h4, hmax] using this

/-- Claim C8: `clearToken` does not cancel an in-flight token request.
The settlement of a token request, applied to whatever provider state
is current at that moment (in particular a state whose in-flight marker
was nulled by `clearToken` and then re-installed by a newer fetch),
unconditionally nulls the current marker; and a successful settlement
still writes its token value and expiry into the cache. -/
theorem c8_settle_is_unconditional (respAt : Nat → FetchResult TokenResponse)
    (res : Except JsError String) (eff : Option TokenCache) (evs : List Ev)
    (hrun : getTokenRequest respAt = (res, eff, evs)) :
    (∀ cur : TokenEngineState, (applyTokenSettle cur eff).tokenRequest = none) ∧
    (∀ (cur : TokenEngineState) (b : Nat),
      (applyTokenSettle { clearToken cur with tokenRequest := some b }
          eff).tokenRequest = none) ∧
    (∀ tok : String, res = .ok tok → ∃ exp : Int,
      ∀ cur : TokenEngineState,
        applyTokenSettle cur eff =
          { cur with accessToken := tok, accessTokenExpiresAt := exp,
                     tokenRequest := none }) := by
  refine ⟨?_, ?_, ?_⟩
  · intro cur
    cases eff with
    | none => rfl
    | some c => rfl
  · intro cur b
    cases eff with
    | none => rfl
    | some c => rfl
  · intro tok htok
    have h1 : (getTokenRequest respAt).1 = .ok tok := by rw [hrun, htok]
    obtain ⟨exp, _, heff⟩ :=
      getTokenLoop_ok_effect MAX_API_ATTEMPTS 1 respAt tok h1
    have heq : eff = some ⟨tok, exp⟩ := by
      have h2 : (getTokenRequest respAt).2.1 = eff := by rw [hrun]
      rw [← h2]
      exact heff
    refine ⟨exp, ?_⟩
    intro cur
    rw [heq]
    rfl

/-- Witness for C8: a token request that succeeds with `"tok2"`,
settled against a state in which `clearToken` ran and a newer fetch
(marker `2`) has already started: the newer marker is clobbered and the
old fetch's token is written. -/
theorem c8_witness :
    (applyTokenSettle { clearToken ⟨"/t", true, "old", 50, some 1⟩ with
        tokenRequest := some 2 }
      (getTokenRequest (fun _ => .ok ⟨some "tok2", some 9000⟩)).2.1).tokenRequest
      = none ∧
    applyTokenSettle { clearToken ⟨"/t", true, "old", 50, some 1⟩ with
        tokenRequest := some 2 }
      (getTokenRequest (fun _ => .ok ⟨some "tok2", some 9000⟩)).2.1 =
      ⟨"/t", true, "tok2", 9000, none⟩ := by
  constructor
  · exact (c8_settle_is_unconditional (fun _ => .ok ⟨some "tok2", some 9000⟩)
      (.ok "tok2") (some ⟨"tok2", 9000⟩) [.tokenCall 1, .cacheWrite "tok2" 9000]
      rfl).2.1 ⟨"/t", true, "old", 50, some 1⟩ 2
  · obtain ⟨exp, hall⟩ := (c8_settle_is_unconditional
      (fun _ => .ok ⟨some "tok2", some 9000⟩) (.ok "tok2")
      (some ⟨"tok2", 9000⟩) [.tokenCall 1, .cacheWrite "tok2" 9000]
      rfl).2.2 "tok2" rfl
    have h := hall { clearToken ⟨"/t", true, "old", 50, some 1⟩ with
      tokenRequest := some 2 }
    have hexp : exp = 9000 := by
      have := congrArg TokenEngineState.accessTokenExpiresAt h
      simpa [applyTokenSettle] using this.symm
    rw [hexp] at h
    exact h

/-- Counterexample to C7 as stated: resolving `"/api/auth/login"` on
page `"https://app.example.com/x"` does not yield the relative string
`"/api/auth/login?return_url=https%3A%2F%2Fapp.example.com%2Fx"`; the
`URL.toString()` serialization is the absolute URL
`"https://app.example.com/api/auth/login?return_url=https%3A%2F%2Fapp.example.com%2Fx"`. -/
theorem c7_counterexample :
    resolveAuthProviderLoginUrl "/api/auth/login" "https://app.example.com"
        "https://app.example.com/x" =
      .ok "https://app.example.com/api/auth/login?return_url=https%3A%2F%2Fapp.example.com%2Fx" ∧
    resolveAuthProviderLoginUrl "/api/auth/login" "https://app.example.com"
        "https://app.example.com/x" ≠
      .ok "/api/auth/login?return_url=https%3A%2F%2Fapp.example.com%2Fx" := by
  constructor
  · rfl
  · intro h
    have h2 :
        ("https://app.example.com/api/auth/login?return_url=https%3A%2F%2Fapp.example.com%2Fx"
          : String) =
          "/api/auth/login?return_url=https%3A%2F%2Fapp.example.com%2Fx" := by
      have h3 := h
      rw [show resolveAuthProviderLoginUrl "/api/auth/login" "https://app.example.com"
          "https://app.example.com/x" =
        .ok "https://app.example.com/api/auth/login?return_url=https%3A%2F%2Fapp.example.com%2Fx"
        from rfl] at h3
      exact Except.ok.inj h3
    exact absurd h2 (by decide)

/-- Claim C7 (amended): for every login URL in the modelled URL
fragment that lacks a `return_url` query parameter,
`resolveAuthProviderLoginUrl` appends `return_url` equal to the
`encodeURI` of the current page URL and returns the absolute href
serialization of the result; a URL that already has `return_url` is
returned with its query preserved verbatim; resolving
`"/api/auth/login"` on page `"https://app.example.com/x"` yields
exactly
`"https://app.example.com/api/auth/login?return_url=https%3A%2F%2Fapp.example.com%2Fx"`. -/
theorem c7_amended (loginUrl origin href : String) (u : URLModel)
    (hblank : jsTrim loginUrl ≠ "")
    (hu : parseURL loginUrl origin = some u) :
    (urlHasParam u "return_url" = true →
      resolveAuthProviderLoginUrl loginUrl origin href = .ok (urlToString u) ∧
      (∀ q, u.query = some q →
        resolveAuthProviderLoginUrl loginUrl origin href =
          .ok (u.scheme ++ "://" ++ u.host ++ u.pathname ++ "?" ++ q))) ∧
    (urlHasParam u "return_url" = false →
      resolveAuthProviderLoginUrl loginUrl origin href =
        .ok (urlToString (appendParam u "return_url" (encodeURI href)))) ∧
    resolveAuthProviderLoginUrl "/api/auth/login" "https://app.example.com"
        "https://app.example.com/x" =
      .ok "https://app.example.com/api/auth/login?return_url=https%3A%2F%2Fapp.example.com%2Fx" := by
  refine ⟨?_, ?_, rfl⟩
  · intro hparam
    have hres : resolveAuthProviderLoginUrl loginUrl origin href =
        .ok (urlToString u) := by
      simp [resolveAuthProviderLoginUrl, hblank, hu, hparam]
    refine ⟨hres, ?_⟩
    intro q hq
    rw [hres]
    simp [urlToString, hq, String.append_assoc]
  · intro hparam
    simp [resolveAuthProviderLoginUrl, hblank, hu, hparam]

/-- Witness for C7 (amended), preserve side: a login URL that already
carries `return_url=https%3A%2F%2Fother.com` keeps that query verbatim
in the absolute serialization. -/
theorem c7_witness :
    resolveAuthProviderLoginUrl
        "/api/auth/login?return_url=https%3A%2F%2Fother.com"
        "https://app.example.com" "https://app.example.com/x" =
      .ok ("https" ++ "://" ++ "app.example.com" ++ "/api/auth/login" ++ "?" ++
        "return_url=https%3A%2F%2Fother.com") :=
  ((c7_amended "/api/auth/login?return_url=https%3A%2F%2Fother.com"
      "https://app.example.com" "https://app.example.com/x"
      ⟨"https", "app.example.com", "/api/auth/login",
        some "return_url=https%3A%2F%2Fother.com"⟩
      (by decide) rfl).1 rfl).2
    "return_url=https%3A%2F%2Fother.com" rfl
